import Mathlib

/-!
# Verification of the Immpression backend moderation subsystem

A shallow embedding of the Report/Moderation SLA pipeline of the
Immpression backend: the report data model (`models/report.js`), the
report-submission routes (`routes/reportRoutes/reportRoutes.js`), the
admin moderation actions (`routes/admin-userAuthRoutes/admin-reportRoutes.js`),
the SLA monitor (`services/slaMonitor.js`), the block relation
(`models/block.js`, `routes/blockRoutes/blockRoutes.js`), the block
filter of the image listing (`routes/imageRoutes/imageRoutes.js`), and
the content filter (`services/contentFilter.js`).

Conventions of the embedding:
* MongoDB ObjectIds become `Nat`; timestamps become `Int` (milliseconds
  since the epoch, as produced by `Date.now()`).
* Each Mongo collection becomes an association list `List (Nat × α)`
  keyed by document id; `findById` is `findOne`/`findById`,
  `updateById` is `findByIdAndUpdate`, a `map` over the list with a
  conditional update is `updateMany`.
* Each route handler becomes a function from a database state (plus the
  request parameters and the current time) to a result value and the
  new database state.  The early-return error paths of the handlers
  become constructors of per-operation result types.
* External side effects (Cloudinary deletion, outbound email) are
  outside the database state; only the obligation to send an admin
  alert email is recorded (as the list of reports included in it).
-/

namespace Immpression

/-- Milliseconds in 24 hours (`24 * 60 * 60 * 1000`). -/
def MS_PER_DAY : Int := 86400000

/-- Milliseconds in one hour (`60 * 60 * 1000`). -/
def MS_PER_HOUR : Int := 3600000

/-- Enum `REPORT_STATUS` of `models/report.js`. -/
inductive ReportStatus
  | pending
  | under_review
  | resolved
  | dismissed
deriving DecidableEq, Repr

/-- Enum `REPORT_REASON` of `models/report.js`. -/
inductive ReportReason
  | inappropriate_content
  | nudity_sexual
  | violence_graphic
  | hate_speech
  | copyright_violation
  | trademark_violation
  | harassment
  | spam
  | scam_fraud
  | impersonation
  | other
deriving DecidableEq, Repr

/-- Enum `REPORT_TARGET_TYPE` of `models/report.js`. -/
inductive TargetType
  | image
  | user
deriving DecidableEq, Repr

/-- Enum `RESOLUTION_ACTION` of `models/report.js`. -/
inductive ResolutionAction
  | no_action
  | warning_issued
  | content_removed
  | user_suspended
  | user_banned
deriving DecidableEq, Repr

/-- The `contentSnapshot` subdocument of the report schema. -/
structure ContentSnapshot where
  imageLink : Option String := none
  imageName : Option String := none
  imageDescription : Option String := none
  userName : Option String := none
  userEmail : Option String := none
deriving DecidableEq, Repr

/-- A document of the `Report` collection (`models/report.js`).
`createdAt` is the mongoose `timestamps` creation stamp. -/
structure Report where
  reporterUserId : Nat
  targetType : TargetType
  targetImageId : Option Nat := none
  targetUserId : Option Nat := none
  reason : ReportReason
  description : String := ""
  status : ReportStatus := .pending
  slaDeadline : Int
  slaBreached : Bool := false
  resolvedAt : Option Int := none
  resolvedByAdminId : Option Nat := none
  resolutionAction : Option ResolutionAction := none
  resolutionNotes : Option String := none
  contentSnapshot : Option ContentSnapshot := none
  createdAt : Int
deriving DecidableEq, Repr

/-- The moderation-relevant part of a `User` document (`models/users.js`).
`moderationStatus` is kept as the string enum of the schema
(`active`/`warned`/`suspended`/`banned`). -/
structure User where
  name : String := ""
  email : String := ""
  moderationStatus : String := "active"
  warningCount : Nat := 0
  suspendedUntil : Option Int := none
  banReason : Option String := none
  lastModerationAction : Option Int := none
deriving DecidableEq, Repr

/-- The listing-relevant part of an `Image` document.  The `models/images.js`
file itself is not in the sources; the fields are the ones read by the
embedded routes (`userId`, displayable fields, `category`). -/
structure Image where
  userId : Nat
  artistName : String := ""
  name : String := ""
  imageLink : String := ""
  description : String := ""
  category : String := ""
deriving DecidableEq, Repr

/-- A document of the `Block` collection (`models/block.js`): a directed
edge `blockerUserId → blockedUserId`. -/
structure BlockEdge where
  blockerUserId : Nat
  blockedUserId : Nat
  reason : Option String := none
  createdAt : Int := 0
deriving DecidableEq, Repr

/-- Enum `NOTIFICATION_TYPE` of `models/notifications.js`. -/
inductive NotificationType
  | delivery_details_submitted
  | order_paid
  | order_needs_shipping
  | order_shipped
  | order_out_for_delivery
  | order_delivered
  | profile_view
  | like_received
  | image_approved
  | image_rejected
  | report_received
  | report_resolved
  | moderation_warning
  | moderation_suspension
  | moderation_ban
  | content_removed
deriving DecidableEq, Repr

/-- The `data` quick-render payload of a notification. -/
structure NotificationData where
  artName : Option String := none
  imageLink : Option String := none
deriving DecidableEq, Repr

/-- A document of the `Notification` collection, restricted to the
fields written by the moderation flows. -/
structure Notification where
  recipientUserId : Nat
  type : NotificationType
  title : String := ""
  message : String := ""
  reportId : Option Nat := none
  data : Option NotificationData := none
deriving DecidableEq, Repr

/-- The database state: one association list per collection, plus the
list of created notifications. -/
structure DB where
  reports : List (Nat × Report) := []
  users : List (Nat × User) := []
  images : List (Nat × Image) := []
  blocks : List BlockEdge := []
  notifications : List Notification := []
deriving DecidableEq, Repr

/-- Lookup `findById` / `findOne` by id: the first document with the given id. -/
def findById {α : Type} (l : List (Nat × α)) (id : Nat) : Option α :=
  match l with
  | [] => none
  | p :: rest => if p.1 == id then some p.2 else findById rest id

/-- Update `findByIdAndUpdate`: apply `f` to the document(s) with the given id. -/
def updateById {α : Type} (l : List (Nat × α)) (id : Nat) (f : α → α) :
    List (Nat × α) :=
  l.map (fun p => if p.1 == id then (p.1, f p.2) else p)

/-- Looking up id `j` after a value-wise `map` is the mapped lookup. -/
theorem findById_mapVal {α β : Type} (l : List (Nat × α)) (g : α → β) (j : Nat) :
    findById (l.map (fun p => (p.1, g p.2))) j = (findById l j).map g := by
  induction l with
  | nil => rfl
  | cons p l ih =>
      by_cases h : p.1 == j <;> simp [findById, h, ih]

/-- Looking up the updated id yields the updated document. -/
theorem findById_updateById_self {α : Type} (l : List (Nat × α)) (id : Nat) (f : α → α) :
    findById (updateById l id f) id = (findById l id).map f := by
  induction l with
  | nil => rfl
  | cons p l ih =>
      by_cases h : p.1 == id <;> simp [updateById, findById, h] <;>
        simpa [updateById] using ih

/-- Looking up a different id after an update is unchanged. -/
theorem findById_updateById_ne {α : Type} (l : List (Nat × α)) (id : Nat) (f : α → α)
    (j : Nat) (h : j ≠ id) : findById (updateById l id f) j = findById l j := by
  induction l with
  | nil => rfl
  | cons p l ih =>
      by_cases hp : p.1 == id
      · have hid : p.1 = id := by simpa using hp
        have hpj : (p.1 == j) = false := by
          simp only [beq_eq_false_iff_ne, ne_eq, hid]
          exact fun hh => h hh.symm
        simp [updateById, findById, hp, hpj] at ih ⊢
        simpa [updateById] using ih
      · by_cases hpj : p.1 == j <;>
          simp [updateById, findById, hp, hpj] <;>
          simpa [updateById] using ih

/-! ## Report submission (`routes/reportRoutes/reportRoutes.js`) -/

/-- Result of `POST /reports/image/:imageId` and `POST /reports/user/:userId`.
`invalidReason` models a body whose `reason` is missing or outside
`REPORT_REASON` (400); `targetMissing` the 404 path; `selfReport` the
self-report 400; `conflict` the duplicate 409; `created` the 201 path. -/
inductive SubmitResult
  | invalidReason
  | targetMissing
  | selfReport
  | conflict
  | created (reportId : Nat) (r : Report)
deriving DecidableEq, Repr

/-- Route `POST /reports/image/:imageId`.  `reason = none` models a reason not in
the enum.  `newId` is the fresh ObjectId Mongo assigns on `create`;
`now` is `Date.now()`.  The duplicate check matches any report by the
same reporter against the same image created within the last 24 hours,
with no condition on its status. -/
def submitImageReport (db : DB) (reporterId imageId : Nat)
    (reason : Option ReportReason) (description : Option String)
    (now : Int) (newId : Nat) : SubmitResult × DB :=
  match reason with
  | none => (.invalidReason, db)
  | some reason =>
    match findById db.images imageId with
    | none => (.targetMissing, db)
    | some image =>
      if image.userId == reporterId then (.selfReport, db)
      else
        let dup := db.reports.any (fun p =>
          p.2.reporterUserId == reporterId &&
          p.2.targetImageId == some imageId &&
          decide (p.2.createdAt ≥ now - MS_PER_DAY))
        if dup then (.conflict, db)
        else
          let owner := findById db.users image.userId
          let r : Report := {
            reporterUserId := reporterId
            targetType := .image
            targetImageId := some imageId
            targetUserId := some image.userId
            reason := reason
            description := description.getD ""
            status := .pending
            slaDeadline := now + MS_PER_DAY
            slaBreached := false
            contentSnapshot := some {
              imageLink := some image.imageLink
              imageName := some image.name
              imageDescription := some image.description
              userName := owner.map (·.name)
              userEmail := owner.map (·.email) }
            createdAt := now }
          (.created newId r, { db with reports := (newId, r) :: db.reports })

/-- Route `POST /reports/user/:userId`.  The duplicate check matches any report by
the same reporter against the same user with `targetType = user`
created within the last 24 hours, with no condition on its status. -/
def submitUserReport (db : DB) (reporterId userId : Nat)
    (reason : Option ReportReason) (description : Option String)
    (now : Int) (newId : Nat) : SubmitResult × DB :=
  match reason with
  | none => (.invalidReason, db)
  | some reason =>
    match findById db.users userId with
    | none => (.targetMissing, db)
    | some targetUser =>
      if userId == reporterId then (.selfReport, db)
      else
        let dup := db.reports.any (fun p =>
          p.2.reporterUserId == reporterId &&
          p.2.targetUserId == some userId &&
          p.2.targetType == TargetType.user &&
          decide (p.2.createdAt ≥ now - MS_PER_DAY))
        if dup then (.conflict, db)
        else
          let r : Report := {
            reporterUserId := reporterId
            targetType := .user
            targetImageId := none
            targetUserId := some userId
            reason := reason
            description := description.getD ""
            status := .pending
            slaDeadline := now + MS_PER_DAY
            slaBreached := false
            contentSnapshot := some {
              userName := some targetUser.name
              userEmail := some targetUser.email }
            createdAt := now }
          (.created newId r, { db with reports := (newId, r) :: db.reports })

/-! ## Admin status transition (`PATCH /admin/reports/:id/status`) -/

/-- Result of `PATCH /admin/reports/:id/status`. -/
inductive PatchResult
  | invalidStatus
  | notFound
  | ok (r : Report)
deriving DecidableEq, Repr

/-- The `updateData` applied by the status route: the new status, plus
`resolvedAt`/`resolvedByAdminId` when the new status is resolved or
dismissed.  There is no check of the report's current status. -/
def applyStatusUpdate (now : Int) (adminId : Nat) (st : ReportStatus)
    (r : Report) : Report :=
  if st == ReportStatus.resolved || st == ReportStatus.dismissed then
    { r with status := st, resolvedAt := some now, resolvedByAdminId := some adminId }
  else
    { r with status := st }

/-- Route `PATCH /admin/reports/:id/status`.  `status = none` models a body
status outside `REPORT_STATUS` (400). -/
def patchStatus (db : DB) (id : Nat) (status : Option ReportStatus)
    (adminId : Nat) (now : Int) : PatchResult × DB :=
  match status with
  | none => (.invalidStatus, db)
  | some st =>
    match findById db.reports id with
    | none => (.notFound, db)
    | some r =>
      (.ok (applyStatusUpdate now adminId st r),
       { db with reports := updateById db.reports id (applyStatusUpdate now adminId st) })

/-! ## Moderation actions (`routes/admin-userAuthRoutes/admin-reportRoutes.js`) -/

/-- Result of the `POST /admin/reports/:id/action/...` handlers. -/
inductive ActionResult
  | notFound
  | noTargetUser
  | userNotFound
  | banReasonRequired
  | noTargetImage
  | okWarn (userId warningCount : Nat) (moderationStatus : String)
  | okSuspend (userId : Nat) (suspendedUntil : Int) (moderationStatus : String)
  | okBan (userId : Nat) (moderationStatus : String) (banReason : String)
  | okRemoved (alreadyRemoved : Bool)
  | okDismiss (r : Report)
deriving DecidableEq, Repr

/-- The report update shared by the resolving actions. -/
def resolveReport (now : Int) (adminId : Nat) (action : ResolutionAction)
    (notes : String) (r : Report) : Report :=
  { r with status := .resolved, resolvedAt := some now,
           resolvedByAdminId := some adminId,
           resolutionAction := some action,
           resolutionNotes := some notes }

/-- Route `POST /admin/reports/:id/action/warn-user`.  The user mutation is
attempted before the report write; a missing target user returns 404
with nothing modified. -/
def warnUser (db : DB) (id adminId : Nat) (message : Option String)
    (now : Int) : ActionResult × DB :=
  match findById db.reports id with
  | none => (.notFound, db)
  | some report =>
    match report.targetUserId with
    | none => (.noTargetUser, db)
    | some uid =>
      match findById db.users uid with
      | none => (.userNotFound, db)
      | some u =>
        let u' : User := { u with warningCount := u.warningCount + 1,
                                  moderationStatus := "warned",
                                  lastModerationAction := some now }
        let db1 := { db with users := updateById db.users uid (fun v =>
          { v with warningCount := v.warningCount + 1,
                   moderationStatus := "warned",
                   lastModerationAction := some now }) }
        let reports2 := updateById db1.reports id
          (resolveReport now adminId .warning_issued
            (message.getD "Warning issued for community guideline violation"))
        let db2 := { db1 with reports := reports2 }
        let n1 : Notification := {
          recipientUserId := uid
          type := .moderation_warning
          title := "Account Warning"
          message := message.getD
            "You have received a warning for violating our community guidelines. Continued violations may result in account suspension."
          reportId := some id }
        let n2 : Notification := {
          recipientUserId := report.reporterUserId
          type := .report_resolved
          title := "Report Resolved"
          message := "Thank you for your report. We have reviewed it and taken appropriate action."
          reportId := some id }
        (.okWarn uid u'.warningCount u'.moderationStatus,
         { db2 with notifications := db2.notifications ++ [n1, n2] })

/-- Route `POST /admin/reports/:id/action/suspend-user` (default duration 7 days). -/
def suspendUser (db : DB) (id adminId : Nat) (durationDays : Int)
    (message : Option String) (now : Int) : ActionResult × DB :=
  match findById db.reports id with
  | none => (.notFound, db)
  | some report =>
    match report.targetUserId with
    | none => (.noTargetUser, db)
    | some uid =>
      let suspendedUntil := now + durationDays * MS_PER_DAY
      match findById db.users uid with
      | none => (.userNotFound, db)
      | some u =>
        let u' : User := { u with moderationStatus := "suspended",
                                  suspendedUntil := some suspendedUntil,
                                  lastModerationAction := some now }
        let db1 := { db with users := updateById db.users uid (fun v =>
          { v with moderationStatus := "suspended",
                   suspendedUntil := some suspendedUntil,
                   lastModerationAction := some now }) }
        let reports2 := updateById db1.reports id
          (resolveReport now adminId .user_suspended
            (message.getD ("User suspended for " ++ toString durationDays ++
              " days due to community guideline violations")))
        let db2 := { db1 with reports := reports2 }
        let n1 : Notification := {
          recipientUserId := uid
          type := .moderation_suspension
          title := "Account Suspended"
          message := message.getD
            ("Your account has been suspended for " ++ toString durationDays ++
             " days due to community guideline violations.")
          reportId := some id }
        let n2 : Notification := {
          recipientUserId := report.reporterUserId
          type := .report_resolved
          title := "Report Resolved"
          message := "Thank you for your report. We have reviewed it and taken appropriate action."
          reportId := some id }
        (.okSuspend uid suspendedUntil u'.moderationStatus,
         { db2 with notifications := db2.notifications ++ [n1, n2] })

/-- Route `POST /admin/reports/:id/action/ban-user`.  A missing `reason` is
rejected (400) before the report is looked up. -/
def banUser (db : DB) (id adminId : Nat) (reason : Option String)
    (now : Int) : ActionResult × DB :=
  match reason with
  | none => (.banReasonRequired, db)
  | some reason =>
    match findById db.reports id with
    | none => (.notFound, db)
    | some report =>
      match report.targetUserId with
      | none => (.noTargetUser, db)
      | some uid =>
        match findById db.users uid with
        | none => (.userNotFound, db)
        | some u =>
          let u' : User := { u with moderationStatus := "banned",
                                    banReason := some reason,
                                    lastModerationAction := some now }
          let db1 := { db with users := updateById db.users uid (fun v =>
            { v with moderationStatus := "banned",
                     banReason := some reason,
                     lastModerationAction := some now }) }
          let reports2 := updateById db1.reports id
            (resolveReport now adminId .user_banned reason)
          let db2 := { db1 with reports := reports2 }
          let n1 : Notification := {
            recipientUserId := uid
            type := .moderation_ban
            title := "Account Terminated"
            message := "Your account has been permanently banned. Reason: " ++ reason
            reportId := some id }
          let n2 : Notification := {
            recipientUserId := report.reporterUserId
            type := .report_resolved
            title := "Report Resolved"
            message := "Thank you for your report. We have reviewed it and taken appropriate action."
            reportId := some id }
          (.okBan uid u'.moderationStatus reason,
           { db2 with notifications := db2.notifications ++ [n1, n2] })

/-- Route `POST /admin/reports/:id/action/remove-content`.  When the image no
longer exists the report is resolved as already handled and the call
succeeds (`okRemoved true`); otherwise the image document is deleted
(the Cloudinary deletion is an external best-effort side effect outside
the state), the report resolved, and the owner/reporter notified. -/
def removeContent (db : DB) (id adminId : Nat) (notifyUser : Bool)
    (reason : Option String) (now : Int) : ActionResult × DB :=
  match findById db.reports id with
  | none => (.notFound, db)
  | some report =>
    match report.targetImageId with
    | none => (.noTargetImage, db)
    | some iid =>
      match findById db.images iid with
      | none =>
        let reports1 := updateById db.reports id
          (resolveReport now adminId .content_removed "Content was already removed")
        (.okRemoved true, { db with reports := reports1 })
      | some image =>
        let db1 := { db with images := db.images.filter (fun p => !(p.1 == iid)) }
        let reports2 := updateById db1.reports id
          (resolveReport now adminId .content_removed
            (reason.getD "Content removed for violating community guidelines"))
        let db2 := { db1 with reports := reports2 }
        let ownerNotifs :=
          match notifyUser, report.targetUserId with
          | true, some uid =>
            [{ recipientUserId := uid
               type := .content_removed
               title := "Content Removed"
               message := reason.getD ("Your artwork \"" ++ image.name ++
                 "\" has been removed for violating our community guidelines.")
               reportId := some id
               data := some { artName := some image.name
                              imageLink := (report.contentSnapshot.map (·.imageLink)).join }
               : Notification }]
          | _, _ => []
        let n2 : Notification := {
          recipientUserId := report.reporterUserId
          type := .report_resolved
          title := "Report Resolved"
          message := "Thank you for your report. The content has been removed."
          reportId := some id }
        (.okRemoved false,
         { db2 with notifications := db2.notifications ++ ownerNotifs ++ [n2] })

/-- Route `POST /admin/reports/:id/action/dismiss`: an unconditional
`findByIdAndUpdate` to dismissed/no-action, then a reporter notification. -/
def dismissReport (db : DB) (id adminId : Nat) (reason : Option String)
    (now : Int) : ActionResult × DB :=
  match findById db.reports id with
  | none => (.notFound, db)
  | some r =>
    let upd := fun (r0 : Report) =>
      { r0 with status := ReportStatus.dismissed, resolvedAt := some now,
                resolvedByAdminId := some adminId,
                resolutionAction := some ResolutionAction.no_action,
                resolutionNotes := some (reason.getD "Report dismissed - no violation found") }
    let db1 := { db with reports := updateById db.reports id upd }
    let n : Notification := {
      recipientUserId := r.reporterUserId
      type := .report_resolved
      title := "Report Reviewed"
      message := "We have reviewed your report. After investigation, we determined that no violation occurred. Thank you for helping keep our community safe."
      reportId := some id }
    (.okDismiss (upd r), { db1 with notifications := db1.notifications ++ [n] })

/-! ## SLA breach sweep (`Report.markBreachedReports`, `models/report.js`) -/

/-- The `updateMany` filter of `markBreachedReports`: unresolved status,
deadline strictly in the past, not yet marked. -/
def breachCond (now : Int) (r : Report) : Bool :=
  (r.status == ReportStatus.pending || r.status == ReportStatus.under_review) &&
  decide (r.slaDeadline < now) && r.slaBreached == false

/-- The per-document effect of `markBreachedReports`. -/
def breachStep (now : Int) (r : Report) : Report :=
  if breachCond now r then { r with slaBreached := true } else r

/-- Static `Report.markBreachedReports()`: set `slaBreached := true` on every
report matching `breachCond`. -/
def markBreachedReports (now : Int) (db : DB) : DB :=
  { db with reports := db.reports.map (fun p => (p.1, breachStep now p.2)) }

/-! ## SLA monitor (`services/slaMonitor.js`) -/

/-- The two alert urgency tiers. -/
inductive Tier
  | urgent
  | warning
deriving DecidableEq, Repr

/-- A key of the in-process `alertedReports` set.  The source stores the
string `"{tier}-{reportId}"`; since ObjectIds contain no dash the pair
is the same data. -/
abbrev AlertKey := Tier × Nat

/-- Operation `Set.add`: insert a key if not already present. -/
def insertKey (k : AlertKey) (s : List AlertKey) : List AlertKey :=
  if k ∈ s then s else k :: s

/-- Predicate `status ∈ {pending, under_review}` as used by the monitor queries. -/
def unresolvedStatus (r : Report) : Bool :=
  r.status == ReportStatus.pending || r.status == ReportStatus.under_review

/-- Predicate `status ∈ {resolved, dismissed}`. -/
def terminalStatus (r : Report) : Bool :=
  r.status == ReportStatus.resolved || r.status == ReportStatus.dismissed

/-- The observable outcome of one monitor cycle: the two tiers of the
at-risk partition and, per tier, the report batch of the admin email if
one was sent. -/
structure CycleOutcome where
  urgentList : List (Nat × Report)
  warningList : List (Nat × Report)
  urgentEmail : Option (List (Nat × Report))
  warningEmail : Option (List (Nat × Report))
deriving DecidableEq, Repr

/-- The at-risk query filter of the monitor: unresolved status and
`now < slaDeadline ≤ fourHoursFromNow`. -/
def atRiskFilter (now : Int) (p : Nat × Report) : Bool :=
  unresolvedStatus p.2 && decide (p.2.slaDeadline ≤ now + 4 * MS_PER_HOUR) &&
    decide (now < p.2.slaDeadline)

/-- Comparator of `.sort` on `slaDeadline`: ascending by deadline. -/
def deadlineLe (a b : Nat × Report) : Bool :=
  decide (a.2.slaDeadline ≤ b.2.slaDeadline)

/-- The urgent-tier filter: `slaDeadline ≤ oneHourFromNow`. -/
def urgentFilter (now : Int) (p : Nat × Report) : Bool :=
  decide (p.2.slaDeadline ≤ now + MS_PER_HOUR)

/-- The warning-tier filter: `slaDeadline > oneHourFromNow`. -/
def warningFilter (now : Int) (p : Nat × Report) : Bool :=
  decide (now + MS_PER_HOUR < p.2.slaDeadline)

/-- Check `!alertedReports.has` on the tier key. -/
def notYetAlerted (t : Tier) (alerted : List AlertKey) (p : Nat × Report) : Bool :=
  !((t, p.1) ∈ alerted : Bool)

/-- Loop `forEach` adding each tier key to the alerted set. -/
def addAlerts (t : Tier) (l : List (Nat × Report)) (s : List AlertKey) :
    List AlertKey :=
  l.foldl (fun s p => insertKey (t, p.1) s) s

/-- Function `checkSLADeadlines()` of `services/slaMonitor.js`: fetch the at-risk
reports (unresolved, `now < slaDeadline ≤ now + 4h`, ascending by
deadline), run the breach sweep, split into urgent (`≤ now + 1h`) and
warning tiers, email each tier's not-yet-alerted subset if non-empty
and mark those keys, then drop keys whose report is now terminal. -/
def checkSLADeadlines (now : Int) (db : DB) (alerted : List AlertKey) :
    CycleOutcome × DB × List AlertKey :=
  let atRiskReports := (db.reports.filter (atRiskFilter now)).mergeSort deadlineLe
  let db1 := markBreachedReports now db
  let urgentReports := atRiskReports.filter (urgentFilter now)
  let warningReports := atRiskReports.filter (warningFilter now)
  let newUrgentReports := urgentReports.filter (notYetAlerted Tier.urgent alerted)
  let alerted1 :=
    if newUrgentReports.length > 0 then addAlerts Tier.urgent newUrgentReports alerted
    else alerted
  let newWarningReports := warningReports.filter (notYetAlerted Tier.warning alerted1)
  let alerted2 :=
    if newWarningReports.length > 0 then addAlerts Tier.warning newWarningReports alerted1
    else alerted1
  let resolvedReportIds :=
    (db1.reports.filter (fun p => terminalStatus p.2)).map (·.1)
  let alerted3 := alerted2.filter (fun k => !(resolvedReportIds.contains k.2))
  ({ urgentList := urgentReports
     warningList := warningReports
     urgentEmail := if newUrgentReports.length > 0 then some newUrgentReports else none
     warningEmail := if newWarningReports.length > 0 then some newWarningReports else none },
   db1, alerted3)

/-- The tier-`t` email of an outcome. -/
def tierEmail (t : Tier) (out : CycleOutcome) : Option (List (Nat × Report)) :=
  match t with
  | .urgent => out.urgentEmail
  | .warning => out.warningEmail

/-- A run of successive monitor cycles.  Each element of `steps` is the
time of a cycle and the database state it observes (the state may have
been mutated arbitrarily between cycles); the in-process alerted set is
threaded through. -/
def runTrace (steps : List (Int × DB)) (alerted : List AlertKey) :
    List CycleOutcome × List AlertKey :=
  match steps with
  | [] => ([], alerted)
  | (now, db) :: rest =>
    let c := checkSLADeadlines now db alerted
    let r := runTrace rest c.2.2
    (c.1 :: r.1, r.2)

/-! ## Block relation and listing filter
(`models/block.js`, `routes/blockRoutes/blockRoutes.js`,
`routes/imageRoutes/imageRoutes.js`) -/

/-- Static `Block.getBlockedUserIds(blockerUserId)`. -/
def getBlockedUserIds (db : DB) (blockerUserId : Nat) : List Nat :=
  (db.blocks.filter (fun b => b.blockerUserId == blockerUserId)).map (·.blockedUserId)

/-- The edge predicate of `findOne`/`findOneAndDelete` on `(blocker, blocked)`. -/
def blockEdgeMatch (blockerId targetId : Nat) (b : BlockEdge) : Bool :=
  b.blockerUserId == blockerId && b.blockedUserId == targetId

/-- Result of `DELETE /blocks/:userId`. -/
inductive UnblockResult
  | notFound
  | ok
deriving DecidableEq, Repr

/-- Route `DELETE /blocks/:userId`: `findOneAndDelete` of the edge
`blocker → target`; 404 when no edge exists. -/
def deleteBlock (db : DB) (blockerId targetId : Nat) : UnblockResult × DB :=
  if db.blocks.any (blockEdgeMatch blockerId targetId) then
    (.ok, { db with blocks := db.blocks.eraseP (blockEdgeMatch blockerId targetId) })
  else
    (.notFound, db)

/-- The category part of the `GET /all_images` query. -/
def categoryMatch (category : Option String) (img : Image) : Bool :=
  match category with
  | none => true
  | some c => img.category == c

/-- The Mongo query of `GET /all_images`: optional category filter and,
for an authenticated viewer with a non-empty block list, the
`userId $nin blockedUserIds` exclusion. -/
def allImagesMatch (db : DB) (viewer : Option Nat) (category : Option String)
    (p : Nat × Image) : Bool :=
  categoryMatch category p.2 &&
  (match viewer with
   | none => true
   | some v =>
     let blocked := getBlockedUserIds db v
     if blocked.length > 0 then !(blocked.contains p.2.userId) else true)

/-- The `ImageModel.find(query)` result of `GET /all_images`. -/
def allImagesFind (db : DB) (viewer : Option Nat) (category : Option String) :
    List (Nat × Image) :=
  db.images.filter (allImagesMatch db viewer category)

/-- The page returned by `GET /all_images` (`skip = (page-1)*limit`,
then `limit`). -/
def allImagesPage (db : DB) (viewer : Option Nat) (category : Option String)
    (page limit : Nat) : List (Nat × Image) :=
  ((allImagesFind db viewer category).drop ((page - 1) * limit)).take limit

/-! ## Content filter (`services/contentFilter.js`) -/

/-- A token of one of the source's spam/scam regular expressions. -/
inductive Tok
  | lit (s : String)
  | wsp
  | digits
  | optDollar
  | optMeWsp
deriving DecidableEq, Repr

/-- The characters matched by the regex class `\s` (ASCII subset). -/
def isWsChar (c : Char) : Bool :=
  c == ' ' || c == '\t' || c == '\n' || c == '\r' || c == '\x0b' || c == '\x0c'

/-- Case-insensitive character comparison (the `i` regex flag). -/
def charIEq (a b : Char) : Bool :=
  a.toLower == b.toLower

/-- Match a literal case-insensitively against a prefix of the input,
returning the remainder. -/
def matchLit : List Char → List Char → Option (List Char)
  | [], cs => some cs
  | _ :: _, [] => none
  | l :: ls, c :: cs => if charIEq l c then matchLit ls cs else none

/-- All remainders after consuming one or more whitespace characters
(`\s+`). -/
def wsRemainders : List Char → List (List Char)
  | [] => []
  | c :: cs => if isWsChar c then cs :: wsRemainders cs else []

/-- All remainders after consuming one or more digits (`\d+`). -/
def digitRemainders : List Char → List (List Char)
  | [] => []
  | c :: cs => if c.isDigit then cs :: digitRemainders cs else []

/-- All remainders after matching one token at the head of the input. -/
def matchTok : Tok → List Char → List (List Char)
  | .lit s, cs =>
    match matchLit s.data cs with
    | some r => [r]
    | none => []
  | .wsp, cs => wsRemainders cs
  | .digits, cs => digitRemainders cs
  | .optDollar, cs =>
    cs :: (match cs with
           | c :: rest => if c == '$' then [rest] else []
           | [] => [])
  | .optMeWsp, cs =>
    cs :: (match matchLit "me".data cs with
           | some r => wsRemainders r
           | none => [])

/-- Match a token sequence at the head of the input. -/
def matchToks : List Tok → List Char → Bool
  | [], _ => true
  | t :: ts, cs => (matchTok t cs).any (matchToks ts)

/-- Semantics of `RegExp.test`: match the token sequence at any position. -/
def matchSomewhere (ts : List Tok) : List Char → Bool
  | [] => matchToks ts []
  | c :: cs => matchToks ts (c :: cs) || matchSomewhere ts cs

/-- Test `pattern.test(text)` for one of the embedded patterns. -/
def testPat (ts : List Tok) (text : String) : Bool :=
  matchSomewhere ts text.data

/-- List `BLOCKED_WORDS` of `services/contentFilter.js`. -/
def BLOCKED_WORDS : List String :=
  ["explicit-word-1", "explicit-word-2"]

/-- List `SPAM_PATTERNS` of `services/contentFilter.js`, each as its
`toString()` name and its token sequence. -/
def SPAM_PATTERNS : List (String × List Tok) :=
  [("/buy\\s+now/i", [.lit "buy", .wsp, .lit "now"]),
   ("/click\\s+here/i", [.lit "click", .wsp, .lit "here"]),
   ("/limited\\s+time\\s+offer/i",
     [.lit "limited", .wsp, .lit "time", .wsp, .lit "offer"]),
   ("/act\\s+now/i", [.lit "act", .wsp, .lit "now"]),
   ("/free\\s+money/i", [.lit "free", .wsp, .lit "money"]),
   ("/make\\s+\\$?\\d+/i", [.lit "make", .wsp, .optDollar, .digits]),
   ("/earn\\s+\\$?\\d+/i", [.lit "earn", .wsp, .optDollar, .digits])]

/-- List `SCAM_PATTERNS` of `services/contentFilter.js`. -/
def SCAM_PATTERNS : List (String × List Tok) :=
  [("/send\\s+(me\\s+)?money/i", [.lit "send", .wsp, .optMeWsp, .lit "money"]),
   ("/wire\\s+transfer/i", [.lit "wire", .wsp, .lit "transfer"]),
   ("/western\\s+union/i", [.lit "western", .wsp, .lit "union"]),
   ("/bitcoin\\s+wallet/i", [.lit "bitcoin", .wsp, .lit "wallet"]),
   ("/crypto\\s+wallet/i", [.lit "crypto", .wsp, .lit "wallet"]),
   ("/pay\\s+outside/i", [.lit "pay", .wsp, .lit "outside"]),
   ("/contact\\s+me\\s+at/i", [.lit "contact", .wsp, .lit "me", .wsp, .lit "at"])]

/-- Result of `checkForBlockedWords`. -/
structure BlockedWordsResult where
  isClean : Bool
  flaggedWords : List String
deriving DecidableEq, Repr

/-- Result of `checkForSpam` / `checkForScam`. -/
structure PatternsResult where
  isClean : Bool
  matchedPatterns : List String
deriving DecidableEq, Repr

/-- Whether `small` occurs as a contiguous substring of `l`. -/
def isInfixList {α : Type} [BEq α] (l : List α) (small : List α) : Bool :=
  match l with
  | [] => small.isEmpty
  | _ :: rest => small.isPrefixOf l || isInfixList rest small

/-- Check `lowerText.includes(word.toLowerCase())`. -/
def includesLower (text word : String) : Bool :=
  isInfixList (text.data.map Char.toLower) (word.data.map Char.toLower)

/-- Function `checkForBlockedWords(text)`.  An empty string is falsy in the
source's `!text` guard and is returned clean immediately. -/
def checkForBlockedWords (text : String) : BlockedWordsResult :=
  if text.isEmpty then { isClean := true, flaggedWords := [] }
  else
    let flaggedWords := BLOCKED_WORDS.filter (fun w => includesLower text w)
    { isClean := flaggedWords.isEmpty, flaggedWords := flaggedWords }

/-- Function `checkForSpam(text)`. -/
def checkForSpam (text : String) : PatternsResult :=
  if text.isEmpty then { isClean := true, matchedPatterns := [] }
  else
    let matched := (SPAM_PATTERNS.filter (fun p => testPat p.2 text)).map (·.1)
    { isClean := matched.isEmpty, matchedPatterns := matched }

/-- Function `checkForScam(text)`. -/
def checkForScam (text : String) : PatternsResult :=
  if text.isEmpty then { isClean := true, matchedPatterns := [] }
  else
    let matched := (SCAM_PATTERNS.filter (fun p => testPat p.2 text)).map (·.1)
    { isClean := matched.isEmpty, matchedPatterns := matched }

/-- An entry of the `issues` array of `analyzeContent`. -/
structure Issue where
  type : String
  details : List String
deriving DecidableEq, Repr

/-- Result of `analyzeContent`. -/
structure AnalyzeResult where
  isClean : Bool
  issues : List Issue
  riskLevel : String
deriving DecidableEq, Repr

/-- Function `analyzeContent(text)`: combine the three checks; `riskLevel` is
`low` when clean, `high` when at least two issue categories fire,
`medium` otherwise. -/
def analyzeContent (text : String) : AnalyzeResult :=
  let blockedWordsResult := checkForBlockedWords text
  let spamResult := checkForSpam text
  let scamResult := checkForScam text
  let isClean := blockedWordsResult.isClean && spamResult.isClean && scamResult.isClean
  let issues :=
    (if !blockedWordsResult.isClean then
      [{ type := "blocked_words", details := blockedWordsResult.flaggedWords : Issue }]
     else []) ++
    (if !spamResult.isClean then
      [{ type := "spam", details := spamResult.matchedPatterns : Issue }]
     else []) ++
    (if !scamResult.isClean then
      [{ type := "scam", details := scamResult.matchedPatterns : Issue }]
     else [])
  { isClean := isClean
    issues := issues
    riskLevel := if isClean then "low" else if issues.length ≥ 2 then "high" else "medium" }

/-! # Claim theorems -/

/-- C9: for every input text, `analyzeContent` returns `riskLevel = low`
iff all three classifiers (blocked-words, spam, scam) report clean,
`riskLevel = high` iff at least two of the three issue categories fire,
and `riskLevel = medium` otherwise (exactly one category fires). -/
theorem C9_riskLevel_partition (text : String) :
    ((analyzeContent text).riskLevel = "low" ↔
      ((checkForBlockedWords text).isClean = true ∧
       (checkForSpam text).isClean = true ∧
       (checkForScam text).isClean = true))
  ∧ ((analyzeContent text).riskLevel = "high" ↔
      2 ≤ ((if (checkForBlockedWords text).isClean then 0 else 1) +
           (if (checkForSpam text).isClean then 0 else 1) +
           (if (checkForScam text).isClean then 0 else 1) : Nat))
  ∧ ((analyzeContent text).riskLevel = "medium" ↔
      ((if (checkForBlockedWords text).isClean then 0 else 1) +
       (if (checkForSpam text).isClean then 0 else 1) +
       (if (checkForScam text).isClean then 0 else 1) : Nat) = 1) := by
  cases hb : (checkForBlockedWords text).isClean <;>
    cases hs : (checkForSpam text).isClean <;>
      cases hc : (checkForScam text).isClean <;>
        simp [analyzeContent, hb, hs, hc]

/-- C6: for every successfully created report (image or user target),
`slaDeadline` equals `createdAt + 24h` exactly. -/
theorem C6_slaDeadline_creation (db : DB) (reporterId targetId : Nat)
    (reason : ReportReason) (descr : Option String) (now : Int)
    (newId rid : Nat) (r : Report) :
    ((submitImageReport db reporterId targetId (some reason) descr now newId).1 =
        SubmitResult.created rid r → r.slaDeadline = r.createdAt + MS_PER_DAY)
  ∧ ((submitUserReport db reporterId targetId (some reason) descr now newId).1 =
        SubmitResult.created rid r → r.slaDeadline = r.createdAt + MS_PER_DAY) := by
  constructor
  · intro h
    simp only [submitImageReport] at h
    repeat' split at h
    all_goals simp at h
    all_goals obtain ⟨h1, h2⟩ := h
    all_goals subst h2
    all_goals rfl
  · intro h
    simp only [submitUserReport] at h
    repeat' split at h
    all_goals simp at h
    all_goals obtain ⟨h1, h2⟩ := h
    all_goals subst h2
    all_goals rfl

/-- Witness database for the C6 theorem: one reporter, one owner, one image. -/
def dbW6 : DB :=
  { users := [(1, { name := "reporter" }), (2, { name := "owner" })],
    images := [(5, { userId := 2, name := "art" })] }

/-- The snapshot of the report created by the C6 witness submission. -/
def snapW6 : ContentSnapshot :=
  { imageLink := some ""
    imageName := some "art"
    imageDescription := some ""
    userName := some "owner"
    userEmail := some "" }

/-- The report created by the C6 witness submission. -/
def rW6 : Report :=
  { reporterUserId := 1
    targetType := .image
    targetImageId := some 5
    targetUserId := some 2
    reason := .spam
    slaDeadline := 86401000
    contentSnapshot := some snapW6
    createdAt := 1000 }

/-- Witness for C6 at a concrete submission. -/
theorem C6_slaDeadline_witness : rW6.slaDeadline = rW6.createdAt + MS_PER_DAY :=
  (C6_slaDeadline_creation dbW6 1 5 .spam none 1000 11 11 rW6).1 (by decide)

/-- C10: for warn-user, suspend-user and ban-user, when the report
resolves but its `targetUserId` does not resolve to an existing user,
the action returns 404 and the whole database state — report, users,
notifications — is unchanged (the user mutation is attempted before the
report write). -/
theorem C10_missing_target_user (db : DB) (id adminId uid : Nat)
    (msg : Option String) (dur : Int) (reason : String) (now : Int) (r : Report)
    (hr : findById db.reports id = some r)
    (hu : r.targetUserId = some uid)
    (hmissing : findById db.users uid = none) :
    warnUser db id adminId msg now = (.userNotFound, db)
  ∧ suspendUser db id adminId dur msg now = (.userNotFound, db)
  ∧ banUser db id adminId (some reason) now = (.userNotFound, db) := by
  refine ⟨?_, ?_, ?_⟩
  · simp [warnUser, hr, hu, hmissing]
  · simp [suspendUser, hr, hu, hmissing]
  · simp [banUser, hr, hu, hmissing]

/-- The report of the C10 witness database: it targets user 7. -/
def rW10 : Report :=
  { reporterUserId := 1
    targetType := .user
    targetUserId := some 7
    reason := .harassment
    slaDeadline := 86400000
    createdAt := 0 }

/-- Witness database for C10: report 10 targets user 7, which is absent. -/
def dbW10 : DB :=
  { reports := [(10, rW10)]
    users := [(1, {})] }

/-- Witness for C10 at a concrete database. -/
theorem C10_missing_target_user_witness :
    warnUser dbW10 10 9 none 500 = (.userNotFound, dbW10)
  ∧ suspendUser dbW10 10 9 7 none 500 = (.userNotFound, dbW10)
  ∧ banUser dbW10 10 9 (some "spamming") 500 = (.userNotFound, dbW10) :=
  C10_missing_target_user dbW10 10 9 7 none 7 "spamming" 500 rW10
    (by decide) (by decide) (by decide)

/-- Looking up an id among the entries surviving the deletion of that id
finds nothing. -/
theorem findById_filterOut {α : Type} (l : List (Nat × α)) (id : Nat) :
    findById (l.filter (fun p => !(p.1 == id))) id = none := by
  induction l with
  | nil => rfl
  | cons p l ih =>
      by_cases h : p.1 == id <;> simp [findById, List.filter_cons, h, ih]

/-- C7: a remove-content action on an existing report whose
`targetImageId` no longer resolves succeeds (already-removed path) and
resolves the report with `content_removed`; consequently, after any
successful full removal, a second remove-content call on the same
report id succeeds via that already-removed path. -/
theorem C7_removeContent_idempotent (db : DB) (id adminId adminId2 : Nat)
    (notify notify2 : Bool) (reason reason2 : Option String) (now now2 : Int)
    (r : Report) (iid : Nat)
    (hr : findById db.reports id = some r)
    (hi : r.targetImageId = some iid) :
    (findById db.images iid = none →
      (removeContent db id adminId notify reason now).1 = .okRemoved true
      ∧ ∃ r', findById (removeContent db id adminId notify reason now).2.reports id = some r'
          ∧ r'.status = .resolved ∧ r'.resolutionAction = some .content_removed)
  ∧ ((removeContent db id adminId notify reason now).1 = .okRemoved false →
      (removeContent (removeContent db id adminId notify reason now).2
        id adminId2 notify2 reason2 now2).1 = .okRemoved true) := by
  constructor
  · intro hnone
    have hstep : removeContent db id adminId notify reason now =
        (.okRemoved true,
         { db with reports := updateById db.reports id (resolveReport now adminId .content_removed "Content was already removed") }) := by
      simp [removeContent, hr, hi, hnone]
    rw [hstep]
    refine ⟨rfl, resolveReport now adminId .content_removed "Content was already removed" r,
      ?_, rfl, rfl⟩
    show findById (updateById db.reports id _) id = _
    rw [findById_updateById_self, hr]
    rfl
  · intro hfull
    cases himg : findById db.images iid with
    | none =>
        have hres : (removeContent db id adminId notify reason now).1 = .okRemoved true := by
          simp [removeContent, hr, hi, himg]
        rw [hres] at hfull
        exact absurd hfull (by simp)
    | some image =>
        have hrep : (removeContent db id adminId notify reason now).2.reports =
            updateById db.reports id (resolveReport now adminId .content_removed
              (reason.getD "Content removed for violating community guidelines")) := by
          simp [removeContent, hr, hi, himg]
        have himgs : (removeContent db id adminId notify reason now).2.images =
            db.images.filter (fun p => !(p.1 == iid)) := by
          simp [removeContent, hr, hi, himg]
        have hr2 : findById (removeContent db id adminId notify reason now).2.reports id =
            some (resolveReport now adminId .content_removed
              (reason.getD "Content removed for violating community guidelines") r) := by
          rw [hrep, findById_updateById_self, hr]
          rfl
        have hi2 : (resolveReport now adminId .content_removed
            (reason.getD "Content removed for violating community guidelines") r).targetImageId =
            some iid := hi
        have hnone2 : findById (removeContent db id adminId notify reason now).2.images iid =
            none := by
          rw [himgs]
          exact findById_filterOut db.images iid
        set dbAfter := (removeContent db id adminId notify reason now).2 with hdbAfter
        simp [removeContent, hr2, hi2, hnone2]

/-- The report of the C7 witness database: it reports image 5. -/
def rW7 : Report :=
  { reporterUserId := 1
    targetType := .image
    targetImageId := some 5
    targetUserId := some 2
    reason := .spam
    slaDeadline := 86400000
    createdAt := 0 }

/-- Witness database for C7: report 10 reports image 5, which exists. -/
def dbW7 : DB :=
  { reports := [(10, rW7)]
    users := [(1, {}), (2, {})]
    images := [(5, { userId := 2, name := "art" })] }

/-- Witness for C7: a concrete full removal followed by a second call. -/
theorem C7_removeContent_witness :
    (removeContent (removeContent dbW7 10 9 true none 50).2 10 9 true none 60).1 =
      ActionResult.okRemoved true :=
  (C7_removeContent_idempotent dbW7 10 9 9 true true none none 50 60 rW7 5
    (by decide) (by decide)).2 (by decide)

/-- A resolved report used to exhibit the C1 counterexample. -/
def rC1 : Report :=
  { reporterUserId := 1
    targetType := .user
    targetUserId := some 2
    reason := .harassment
    status := .resolved
    slaDeadline := 86400000
    resolvedAt := some 100
    resolvedByAdminId := some 9
    createdAt := 0 }

/-- Database with one resolved (terminal) report. -/
def dbC1 : DB :=
  { reports := [(10, rC1)], users := [(1, {}), (2, {})] }

/-- C1 counterexample: the status route happily moves a `resolved`
(terminal) report back to `pending` — there IS a transition out of a
terminal state. -/
theorem C1_terminal_status_counterexample :
    (findById dbC1.reports 10).map (·.status) = some ReportStatus.resolved
  ∧ (patchStatus dbC1 10 (some ReportStatus.pending) 9 200).1 =
      PatchResult.ok (applyStatusUpdate 200 9 ReportStatus.pending rC1)
  ∧ (findById (patchStatus dbC1 10 (some ReportStatus.pending) 9 200).2.reports 10).map
      (·.status) = some ReportStatus.pending := by
  refine ⟨by decide, by decide, by decide⟩

/-- C1 amended: `PATCH /admin/reports/:id/status` performs no
terminal-state check at all; on any existing report it applies the
requested status unconditionally — including transitions out of
`resolved`/`dismissed` — and stamps the resolution fields exactly when
the requested status is terminal. -/
theorem C1_terminal_status_amended (db : DB) (id adminId : Nat)
    (st : ReportStatus) (now : Int) (r : Report)
    (hr : findById db.reports id = some r) :
    (patchStatus db id (some st) adminId now).1 =
      PatchResult.ok (applyStatusUpdate now adminId st r)
  ∧ findById (patchStatus db id (some st) adminId now).2.reports id =
      some (applyStatusUpdate now adminId st r)
  ∧ (applyStatusUpdate now adminId st r).status = st
  ∧ ((st = .resolved ∨ st = .dismissed) →
      (applyStatusUpdate now adminId st r).resolvedAt = some now ∧
      (applyStatusUpdate now adminId st r).resolvedByAdminId = some adminId) := by
  refine ⟨?_, ?_, ?_, ?_⟩
  · simp [patchStatus, hr]
  · have : (patchStatus db id (some st) adminId now).2.reports =
        updateById db.reports id (applyStatusUpdate now adminId st) := by
      simp [patchStatus, hr]
    rw [this, findById_updateById_self, hr]
    rfl
  · unfold applyStatusUpdate
    split <;> rfl
  · intro hterm
    unfold applyStatusUpdate
    rcases hterm with h | h <;> subst h <;> simp

/-- Witness for the amended C1 at a concrete pending report. -/
theorem C1_terminal_status_witness :
    (patchStatus dbW10 10 (some ReportStatus.under_review) 9 700).1 =
      PatchResult.ok (applyStatusUpdate 700 9 ReportStatus.under_review rW10) :=
  (C1_terminal_status_amended dbW10 10 9 ReportStatus.under_review 700 rW10 (by decide)).1

/-- A resolved report 1 hour old, for the C2 counterexample. -/
def rC2 : Report :=
  { reporterUserId := 1
    targetType := .image
    targetImageId := some 5
    targetUserId := some 2
    reason := .spam
    status := .resolved
    slaDeadline := 86400000
    resolvedAt := some 1800000
    resolvedByAdminId := some 9
    createdAt := 0 }

/-- Database where reporter 1 already reported image 5 one hour ago and
that report has been resolved. -/
def dbC2 : DB :=
  { reports := [(10, rC2)]
    users := [(1, {}), (2, {})]
    images := [(5, { userId := 2, name := "art" })] }

/-- C2 counterexample: the earlier report is `resolved`, yet a second
submission one hour later is still rejected with `ConflictError` — the
duplicate check does not require the earlier report to be unresolved. -/
theorem C2_duplicate_window_counterexample :
    (findById dbC2.reports 10).map (·.status) = some ReportStatus.resolved
  ∧ (findById dbC2.reports 10).map (·.createdAt) = some 0
  ∧ (submitImageReport dbC2 1 5 (some ReportReason.spam) none 3600000 11).1 =
      SubmitResult.conflict := by
  refine ⟨by decide, by decide, by decide⟩

/-- C2 amended: given a valid reason, an existing target and no
self-report, a submission is rejected with `ConflictError` iff ANY
report (of any status, resolved or not) from the same reporter against
the same target was created within the last 24 hours, and is accepted
otherwise.  Stated for both the image and the user route. -/
theorem C2_duplicate_window_amended (db : DB) (reporterId targetId : Nat)
    (reason : ReportReason) (descr : Option String) (now : Int) (newId : Nat) :
    (∀ img, findById db.images targetId = some img → img.userId ≠ reporterId →
      (((submitImageReport db reporterId targetId (some reason) descr now newId).1 =
          SubmitResult.conflict ↔
        ∃ p ∈ db.reports, p.2.reporterUserId = reporterId ∧
          p.2.targetImageId = some targetId ∧ now - MS_PER_DAY ≤ p.2.createdAt)
      ∧ (¬(∃ p ∈ db.reports, p.2.reporterUserId = reporterId ∧
            p.2.targetImageId = some targetId ∧ now - MS_PER_DAY ≤ p.2.createdAt) →
          ∃ r, (submitImageReport db reporterId targetId (some reason) descr now newId).1 =
            SubmitResult.created newId r)))
  ∧ (∀ u, findById db.users targetId = some u → targetId ≠ reporterId →
      (((submitUserReport db reporterId targetId (some reason) descr now newId).1 =
          SubmitResult.conflict ↔
        ∃ p ∈ db.reports, p.2.reporterUserId = reporterId ∧
          p.2.targetUserId = some targetId ∧ p.2.targetType = TargetType.user ∧
          now - MS_PER_DAY ≤ p.2.createdAt)
      ∧ (¬(∃ p ∈ db.reports, p.2.reporterUserId = reporterId ∧
            p.2.targetUserId = some targetId ∧ p.2.targetType = TargetType.user ∧
            now - MS_PER_DAY ≤ p.2.createdAt) →
          ∃ r, (submitUserReport db reporterId targetId (some reason) descr now newId).1 =
            SubmitResult.created newId r))) := by
  constructor
  · intro img himg hself
    have hselfb : (img.userId == reporterId) = false := by
      simpa using hself
    have hdup : (db.reports.any fun p =>
        p.2.reporterUserId == reporterId && p.2.targetImageId == some targetId &&
          decide (p.2.createdAt ≥ now - MS_PER_DAY)) = true ↔
        ∃ p ∈ db.reports, p.2.reporterUserId = reporterId ∧
          p.2.targetImageId = some targetId ∧ now - MS_PER_DAY ≤ p.2.createdAt := by
      simp [List.any_eq_true, ge_iff_le, and_assoc]
    constructor
    · rw [← hdup]
      cases h : (db.reports.any fun p =>
          p.2.reporterUserId == reporterId && p.2.targetImageId == some targetId &&
            decide (p.2.createdAt ≥ now - MS_PER_DAY)) <;>
        (simp only [submitImageReport, himg, hselfb, h]; simp)
    · intro hno
      rw [← hdup] at hno
      have h : (db.reports.any fun p =>
          p.2.reporterUserId == reporterId && p.2.targetImageId == some targetId &&
            decide (p.2.createdAt ≥ now - MS_PER_DAY)) = false := by
        simpa using hno
      exact ⟨_, by
        simp only [submitImageReport, himg, hselfb, h, Bool.false_eq_true, if_false]
        rfl⟩
  · intro u hu hself
    have hselfb : (targetId == reporterId) = false := by
      simpa using hself
    have hdup : (db.reports.any fun p =>
        p.2.reporterUserId == reporterId && p.2.targetUserId == some targetId &&
          p.2.targetType == TargetType.user &&
          decide (p.2.createdAt ≥ now - MS_PER_DAY)) = true ↔
        ∃ p ∈ db.reports, p.2.reporterUserId = reporterId ∧
          p.2.targetUserId = some targetId ∧ p.2.targetType = TargetType.user ∧
          now - MS_PER_DAY ≤ p.2.createdAt := by
      simp [List.any_eq_true, ge_iff_le, and_assoc]
    constructor
    · rw [← hdup]
      cases h : (db.reports.any fun p =>
          p.2.reporterUserId == reporterId && p.2.targetUserId == some targetId &&
            p.2.targetType == TargetType.user &&
            decide (p.2.createdAt ≥ now - MS_PER_DAY)) <;>
        (simp only [submitUserReport, hu, hselfb, h]; simp)
    · intro hno
      rw [← hdup] at hno
      have h : (db.reports.any fun p =>
          p.2.reporterUserId == reporterId && p.2.targetUserId == some targetId &&
            p.2.targetType == TargetType.user &&
            decide (p.2.createdAt ≥ now - MS_PER_DAY)) = false := by
        simpa using hno
      exact ⟨_, by
        simp only [submitUserReport, hu, hselfb, h, Bool.false_eq_true, if_false]
        rfl⟩

/-- Witness for the amended C2: with the resolved one-hour-old report in
place, the second submission is rejected with `ConflictError`. -/
theorem C2_duplicate_window_witness :
    (submitImageReport dbC2 1 5 (some ReportReason.spam) none 3600000 11).1 =
      SubmitResult.conflict :=
  ((C2_duplicate_window_amended dbC2 1 5 ReportReason.spam none 3600000 11).1
    { userId := 2, name := "art" } (by decide) (by decide)).1.mpr
    ⟨(10, rC2), by decide, by decide, by decide, by decide⟩

/-! ## Infrastructure for C3: one step of the system -/

/-- One operation of the moderation subsystem executed at time `now`.
`submitImage`/`submitUser` carry the freshness of the Mongo-generated
ObjectId. -/
inductive Step (now : Int) : DB → DB → Prop
  | submitImage (db : DB) (reporterId imageId : Nat) (reason : Option ReportReason)
      (descr : Option String) (newId : Nat)
      (hfresh : findById db.reports newId = none) :
      Step now db (submitImageReport db reporterId imageId reason descr now newId).2
  | submitUser (db : DB) (reporterId userId : Nat) (reason : Option ReportReason)
      (descr : Option String) (newId : Nat)
      (hfresh : findById db.reports newId = none) :
      Step now db (submitUserReport db reporterId userId reason descr now newId).2
  | patch (db : DB) (id : Nat) (st : Option ReportStatus) (adminId : Nat) :
      Step now db (patchStatus db id st adminId now).2
  | warn (db : DB) (id adminId : Nat) (msg : Option String) :
      Step now db (warnUser db id adminId msg now).2
  | suspend (db : DB) (id adminId : Nat) (dur : Int) (msg : Option String) :
      Step now db (suspendUser db id adminId dur msg now).2
  | ban (db : DB) (id adminId : Nat) (reason : Option String) :
      Step now db (banUser db id adminId reason now).2
  | remove (db : DB) (id adminId : Nat) (notify : Bool) (reason : Option String) :
      Step now db (removeContent db id adminId notify reason now).2
  | dismiss (db : DB) (id adminId : Nat) (reason : Option String) :
      Step now db (dismissReport db id adminId reason now).2
  | breach (db : DB) : Step now db (markBreachedReports now db)
  | cycle (db : DB) (alerted : List AlertKey) :
      Step now db (checkSLADeadlines now db alerted).2.1

/-- The `slaBreached` behaviour C3 requires of a pair of report stores:
the flag never goes true→false, and it goes false→true only past the
deadline while the status is still unresolved. -/
def BreachOk (now : Int) (l l' : List (Nat × Report)) : Prop :=
  ∀ id r r', findById l id = some r → findById l' id = some r' →
    (r.slaBreached = true → r'.slaBreached = true) ∧
    (r.slaBreached = false → r'.slaBreached = true →
      r.slaDeadline < now ∧ (r.status = .pending ∨ r.status = .under_review))

theorem breachOk_refl (now : Int) (l : List (Nat × Report)) : BreachOk now l l := by
  intro id r r' h1 h2
  rw [h1] at h2
  cases h2
  exact ⟨fun h => h, fun h1 h2 => absurd h2 (by simp [h1])⟩

/-- An update that does not touch `slaBreached` is `BreachOk`. -/
theorem breachOk_updateById (now : Int) (l : List (Nat × Report)) (id : Nat)
    (f : Report → Report) (hf : ∀ r, (f r).slaBreached = r.slaBreached) :
    BreachOk now l (updateById l id f) := by
  intro j r r' h1 h2
  by_cases hj : j = id
  · subst hj
    rw [findById_updateById_self, h1] at h2
    cases h2
    rw [hf r]
    exact ⟨fun h => h, fun h1 h2 => absurd h2 (by simp [h1])⟩
  · rw [findById_updateById_ne _ _ _ _ hj, h1] at h2
    cases h2
    exact ⟨fun h => h, fun h1 h2 => absurd h2 (by simp [h1])⟩

/-- Prepending a fresh document is `BreachOk`. -/
theorem breachOk_consFresh (now : Int) (l : List (Nat × Report)) (newId : Nat)
    (nr : Report) (hfresh : findById l newId = none) :
    BreachOk now l ((newId, nr) :: l) := by
  intro j r r' h1 h2
  rw [findById] at h2
  by_cases hj : newId == j
  · have : newId = j := by simpa using hj
    subst this
    rw [h1] at hfresh
    cases hfresh
  · simp only [hj, if_neg, Bool.not_eq_true] at h2
    rw [h1] at h2
    cases h2
    exact ⟨fun h => h, fun h1 h2 => absurd h2 (by simp [h1])⟩

/-- The breach sweep itself is `BreachOk`. -/
theorem breachOk_markBreached (now : Int) (l : List (Nat × Report)) :
    BreachOk now l (l.map (fun p => (p.1, breachStep now p.2))) := by
  intro j r r' h1 h2
  rw [findById_mapVal, h1] at h2
  cases h2
  unfold breachStep
  by_cases hc : breachCond now r
  · have hc' := hc
    unfold breachCond at hc'
    simp only [Bool.and_eq_true, Bool.or_eq_true, beq_iff_eq, decide_eq_true_eq] at hc'
    rw [if_pos hc]
    exact ⟨fun _ => rfl, fun _ _ => ⟨hc'.1.2, hc'.1.1⟩⟩
  · rw [if_neg hc]
    exact ⟨fun h => h, fun h1 h2 => absurd h2 (by simp [h1])⟩

theorem breachStep_idem (now : Int) (r : Report) :
    breachStep now (breachStep now r) = breachStep now r := by
  by_cases h : breachCond now r
  · have h2 : breachCond now { r with slaBreached := true } = false := by
      simp [breachCond]
    simp [breachStep, h, h2]
  · simp [breachStep, h]

/-- Mapping the breach step twice over a report store is the same as
mapping it once. -/
theorem mapBreach_idem (now : Int) (l : List (Nat × Report)) :
    (l.map (fun p => (p.1, breachStep now p.2))).map
      (fun p => (p.1, breachStep now p.2)) =
    l.map (fun p => (p.1, breachStep now p.2)) := by
  induction l with
  | nil => rfl
  | cons p l ih => simp only [List.map_cons, breachStep_idem, ih]

/-- The sweep `markBreached()` is idempotent. -/
theorem markBreachedReports_idem (now : Int) (db : DB) :
    markBreachedReports now (markBreachedReports now db) = markBreachedReports now db := by
  unfold markBreachedReports
  congr 1
  exact mapBreach_idem now db.reports

theorem resolveReport_slaBreached (now : Int) (adminId : Nat)
    (action : ResolutionAction) (notes : String) (r : Report) :
    (resolveReport now adminId action notes r).slaBreached = r.slaBreached := rfl

theorem applyStatusUpdate_slaBreached (now : Int) (adminId : Nat)
    (st : ReportStatus) (r : Report) :
    (applyStatusUpdate now adminId st r).slaBreached = r.slaBreached := by
  unfold applyStatusUpdate
  split <;> rfl

theorem breachOk_submitImage (now : Int) (db : DB) (reporterId imageId : Nat)
    (reason : Option ReportReason) (descr : Option String) (newId : Nat)
    (hfresh : findById db.reports newId = none) :
    BreachOk now db.reports
      (submitImageReport db reporterId imageId reason descr now newId).2.reports := by
  unfold submitImageReport
  cases reason with
  | none => exact breachOk_refl now db.reports
  | some reason =>
    dsimp only
    cases himg : findById db.images imageId with
    | none => exact breachOk_refl now db.reports
    | some image =>
      dsimp only
      by_cases hself : (image.userId == reporterId) = true
      · simp only [hself, if_pos]
        exact breachOk_refl now db.reports
      · simp only [hself, if_neg, Bool.not_eq_true]
        split
        · exact breachOk_refl now db.reports
        · exact breachOk_consFresh now db.reports newId _ hfresh

theorem breachOk_submitUser (now : Int) (db : DB) (reporterId userId : Nat)
    (reason : Option ReportReason) (descr : Option String) (newId : Nat)
    (hfresh : findById db.reports newId = none) :
    BreachOk now db.reports
      (submitUserReport db reporterId userId reason descr now newId).2.reports := by
  unfold submitUserReport
  cases reason with
  | none => exact breachOk_refl now db.reports
  | some reason =>
    dsimp only
    cases hu : findById db.users userId with
    | none => exact breachOk_refl now db.reports
    | some targetUser =>
      dsimp only
      by_cases hself : (userId == reporterId) = true
      · simp only [hself, if_pos]
        exact breachOk_refl now db.reports
      · simp only [hself, if_neg, Bool.not_eq_true]
        split
        · exact breachOk_refl now db.reports
        · exact breachOk_consFresh now db.reports newId _ hfresh

theorem breachOk_patchStatus (now : Int) (db : DB) (id : Nat)
    (st : Option ReportStatus) (adminId : Nat) :
    BreachOk now db.reports (patchStatus db id st adminId now).2.reports := by
  unfold patchStatus
  cases st with
  | none => exact breachOk_refl now db.reports
  | some st =>
    dsimp only
    cases hr : findById db.reports id with
    | none => exact breachOk_refl now db.reports
    | some r =>
      exact breachOk_updateById now db.reports id _
        (applyStatusUpdate_slaBreached now adminId st)

theorem breachOk_warnUser (now : Int) (db : DB) (id adminId : Nat)
    (msg : Option String) :
    BreachOk now db.reports (warnUser db id adminId msg now).2.reports := by
  unfold warnUser
  cases hr : findById db.reports id with
  | none => exact breachOk_refl now db.reports
  | some report =>
    dsimp only
    cases hu : report.targetUserId with
    | none => exact breachOk_refl now db.reports
    | some uid =>
      dsimp only
      cases hux : findById db.users uid with
      | none => exact breachOk_refl now db.reports
      | some u =>
        exact breachOk_updateById now db.reports id _
          (fun r => resolveReport_slaBreached now adminId _ _ r)

theorem breachOk_suspendUser (now : Int) (db : DB) (id adminId : Nat)
    (dur : Int) (msg : Option String) :
    BreachOk now db.reports (suspendUser db id adminId dur msg now).2.reports := by
  unfold suspendUser
  cases hr : findById db.reports id with
  | none => exact breachOk_refl now db.reports
  | some report =>
    dsimp only
    cases hu : report.targetUserId with
    | none => exact breachOk_refl now db.reports
    | some uid =>
      dsimp only
      cases hux : findById db.users uid with
      | none => exact breachOk_refl now db.reports
      | some u =>
        exact breachOk_updateById now db.reports id _
          (fun r => resolveReport_slaBreached now adminId _ _ r)

theorem breachOk_banUser (now : Int) (db : DB) (id adminId : Nat)
    (reason : Option String) :
    BreachOk now db.reports (banUser db id adminId reason now).2.reports := by
  unfold banUser
  cases reason with
  | none => exact breachOk_refl now db.reports
  | some reason =>
    dsimp only
    cases hr : findById db.reports id with
    | none => exact breachOk_refl now db.reports
    | some report =>
      dsimp only
      cases hu : report.targetUserId with
      | none => exact breachOk_refl now db.reports
      | some uid =>
        dsimp only
        cases hux : findById db.users uid with
        | none => exact breachOk_refl now db.reports
        | some u =>
          exact breachOk_updateById now db.reports id _
            (fun r => resolveReport_slaBreached now adminId _ _ r)

theorem breachOk_removeContent (now : Int) (db : DB) (id adminId : Nat)
    (notify : Bool) (reason : Option String) :
    BreachOk now db.reports (removeContent db id adminId notify reason now).2.reports := by
  unfold removeContent
  cases hr : findById db.reports id with
  | none => exact breachOk_refl now db.reports
  | some report =>
    dsimp only
    cases hi : report.targetImageId with
    | none => exact breachOk_refl now db.reports
    | some iid =>
      dsimp only
      cases himg : findById db.images iid with
      | none =>
          exact breachOk_updateById now db.reports id _
            (fun r => resolveReport_slaBreached now adminId _ _ r)
      | some image =>
          exact breachOk_updateById now db.reports id _
            (fun r => resolveReport_slaBreached now adminId _ _ r)

theorem breachOk_dismissReport (now : Int) (db : DB) (id adminId : Nat)
    (reason : Option String) :
    BreachOk now db.reports (dismissReport db id adminId reason now).2.reports := by
  unfold dismissReport
  cases hr : findById db.reports id with
  | none => exact breachOk_refl now db.reports
  | some r =>
    dsimp only
    exact breachOk_updateById now db.reports id _ (fun r0 => rfl)

/-- The database component returned by a monitor cycle is exactly the
breach sweep of its input. -/
theorem cycle_db_eq (now : Int) (db : DB) (alerted : List AlertKey) :
    (checkSLADeadlines now db alerted).2.1 = markBreachedReports now db := rfl

/-- C3: `markBreached()` is idempotent (a second immediate run changes
nothing), and across every modeled operation `slaBreached` never goes
true→false and flips to true only when the deadline is past while the
status is still pending/under_review. -/
theorem C3_markBreached_idempotent_monotone (now : Int) (db db' : DB)
    (h : Step now db db') :
    markBreachedReports now (markBreachedReports now db) = markBreachedReports now db
  ∧ ∀ id r r', findById db.reports id = some r → findById db'.reports id = some r' →
      (r.slaBreached = true → r'.slaBreached = true)
    ∧ (r.slaBreached = false → r'.slaBreached = true →
        r.slaDeadline < now ∧ (r.status = .pending ∨ r.status = .under_review)) := by
  refine ⟨markBreachedReports_idem now db, ?_⟩
  cases h with
  | submitImage reporterId imageId reason descr newId hfresh =>
      exact breachOk_submitImage now db reporterId imageId reason descr newId hfresh
  | submitUser reporterId userId reason descr newId hfresh =>
      exact breachOk_submitUser now db reporterId userId reason descr newId hfresh
  | patch id st adminId => exact breachOk_patchStatus now db id st adminId
  | warn id adminId msg => exact breachOk_warnUser now db id adminId msg
  | suspend id adminId dur msg => exact breachOk_suspendUser now db id adminId dur msg
  | ban id adminId reason => exact breachOk_banUser now db id adminId reason
  | remove id adminId notify reason =>
      exact breachOk_removeContent now db id adminId notify reason
  | dismiss id adminId reason => exact breachOk_dismissReport now db id adminId reason
  | breach => exact breachOk_markBreached now db.reports
  | cycle alerted => exact breachOk_markBreached now db.reports

/-- A breached pending report past its deadline, for the C3 witness. -/
def rW3 : Report :=
  { reporterUserId := 1
    targetType := .user
    targetUserId := some 2
    reason := .spam
    status := .pending
    slaDeadline := 100
    slaBreached := false
    createdAt := 0 }

/-- Witness database for C3. -/
def dbW3 : DB :=
  { reports := [(10, rW3)], users := [(1, {}), (2, {})] }

/-- Witness for C3: the breach sweep at time 200 on the concrete
database is a `Step`, and the idempotence instance holds there. -/
theorem C3_markBreached_witness :
    markBreachedReports 200 (markBreachedReports 200 dbW3) =
      markBreachedReports 200 dbW3 :=
  (C3_markBreached_idempotent_monotone 200 dbW3 (markBreachedReports 200 dbW3)
    (Step.breach dbW3)).1

/-! ## Infrastructure for C4/C5: the monitor cycle -/

theorem mem_insertKey {k kp : AlertKey} {s : List AlertKey} :
    k ∈ insertKey kp s ↔ k = kp ∨ k ∈ s := by
  unfold insertKey
  by_cases h : kp ∈ s
  · simp only [h, if_pos]
    constructor
    · exact Or.inr
    · rintro (rfl | hk)
      · exact h
      · exact hk
  · simp [h, List.mem_cons]

theorem mem_addAlerts (t : Tier) (l : List (Nat × Report)) (s : List AlertKey)
    (k : AlertKey) :
    k ∈ addAlerts t l s ↔ (∃ p ∈ l, k = (t, p.1)) ∨ k ∈ s := by
  induction l generalizing s with
  | nil => simp [addAlerts]
  | cons p l ih =>
      unfold addAlerts at ih ⊢
      rw [List.foldl_cons, ih, mem_insertKey]
      constructor
      · rintro (⟨q, hq, rfl⟩ | (rfl | hk))
        · exact Or.inl ⟨q, List.mem_cons_of_mem p hq, rfl⟩
        · exact Or.inl ⟨p, List.mem_cons_self p l, rfl⟩
        · exact Or.inr hk
      · rintro (⟨q, hq, rfl⟩ | hk)
        · rcases List.mem_cons.mp hq with rfl | hq
          · exact Or.inr (Or.inl rfl)
          · exact Or.inl ⟨q, hq, rfl⟩
        · exact Or.inr (Or.inr hk)

theorem filter_len_pos {α : Type} (l : List α) (q : α → Bool) :
    (l.filter q).length > 0 ↔ ∃ a ∈ l, q a = true := by
  rw [gt_iff_lt, List.length_pos]
  constructor
  · intro h
    rcases List.exists_mem_of_ne_nil _ h with ⟨a, ha⟩
    rcases List.mem_filter.mp ha with ⟨h1, h2⟩
    exact ⟨a, h1, h2⟩
  · rintro ⟨a, h1, h2⟩
    intro hnil
    have : a ∈ l.filter q := List.mem_filter.mpr ⟨h1, h2⟩
    rw [hnil] at this
    cases this

theorem notYetAlerted_iff (t : Tier) (alerted : List AlertKey) (p : Nat × Report) :
    notYetAlerted t alerted p = true ↔ (t, p.1) ∉ alerted := by
  simp [notYetAlerted]

/-- Adding urgent keys does not change warning-key membership. -/
theorem warning_mem_alerted1 (newUrgent : List (Nat × Report))
    (alerted : List AlertKey) (x : Nat) :
    ((Tier.warning, x) ∈
      (if newUrgent.length > 0 then addAlerts Tier.urgent newUrgent alerted
       else alerted)) ↔ (Tier.warning, x) ∈ alerted := by
  split
  · rw [mem_addAlerts]
    constructor
    · rintro (⟨p, hp, heq⟩ | hk)
      · cases heq
      · exact hk
    · exact Or.inr
  · exact Iff.rfl

theorem cycle_urgentList_eq (now : Int) (db : DB) (alerted : List AlertKey) :
    (checkSLADeadlines now db alerted).1.urgentList =
      ((db.reports.filter (atRiskFilter now)).mergeSort deadlineLe).filter
        (urgentFilter now) := rfl

theorem cycle_warningList_eq (now : Int) (db : DB) (alerted : List AlertKey) :
    (checkSLADeadlines now db alerted).1.warningList =
      ((db.reports.filter (atRiskFilter now)).mergeSort deadlineLe).filter
        (warningFilter now) := rfl

theorem cycle_urgentEmail_eq (now : Int) (db : DB) (alerted : List AlertKey) :
    (checkSLADeadlines now db alerted).1.urgentEmail =
      (if ((checkSLADeadlines now db alerted).1.urgentList.filter
            (notYetAlerted Tier.urgent alerted)).length > 0
       then some ((checkSLADeadlines now db alerted).1.urgentList.filter
            (notYetAlerted Tier.urgent alerted))
       else none) := rfl

theorem cycle_warningEmail_eq (now : Int) (db : DB) (alerted : List AlertKey) :
    (checkSLADeadlines now db alerted).1.warningEmail =
      (let newUrgentReports := (checkSLADeadlines now db alerted).1.urgentList.filter
            (notYetAlerted Tier.urgent alerted)
       let alerted1 := if newUrgentReports.length > 0
          then addAlerts Tier.urgent newUrgentReports alerted else alerted
       let newWarningReports := (checkSLADeadlines now db alerted).1.warningList.filter
            (notYetAlerted Tier.warning alerted1)
       if newWarningReports.length > 0 then some newWarningReports else none) := rfl

theorem mem_cycle_urgentList (now : Int) (db : DB) (alerted : List AlertKey)
    (id : Nat) (r : Report) :
    (id, r) ∈ (checkSLADeadlines now db alerted).1.urgentList ↔
      ((id, r) ∈ db.reports ∧ unresolvedStatus r = true ∧
       now < r.slaDeadline ∧ r.slaDeadline ≤ now + MS_PER_HOUR) := by
  rw [cycle_urgentList_eq, List.mem_filter, List.mem_mergeSort, List.mem_filter]
  unfold atRiskFilter urgentFilter
  simp only [Bool.and_eq_true, decide_eq_true_eq]
  constructor
  · rintro ⟨⟨hmem, ⟨hst, h4⟩, h0⟩, h1⟩
    exact ⟨hmem, hst, h0, h1⟩
  · rintro ⟨hmem, hst, h0, h1⟩
    refine ⟨⟨hmem, ⟨hst, ?_⟩, h0⟩, h1⟩
    unfold MS_PER_HOUR at h1 ⊢
    omega

theorem mem_cycle_warningList (now : Int) (db : DB) (alerted : List AlertKey)
    (id : Nat) (r : Report) :
    (id, r) ∈ (checkSLADeadlines now db alerted).1.warningList ↔
      ((id, r) ∈ db.reports ∧ unresolvedStatus r = true ∧
       now + MS_PER_HOUR < r.slaDeadline ∧ r.slaDeadline ≤ now + 4 * MS_PER_HOUR) := by
  rw [cycle_warningList_eq, List.mem_filter, List.mem_mergeSort, List.mem_filter]
  unfold atRiskFilter warningFilter
  simp only [Bool.and_eq_true, decide_eq_true_eq]
  constructor
  · rintro ⟨⟨hmem, ⟨hst, h4⟩, h0⟩, h1⟩
    exact ⟨hmem, hst, h1, h4⟩
  · rintro ⟨hmem, hst, h1, h4⟩
    refine ⟨⟨hmem, ⟨hst, h4⟩, ?_⟩, h1⟩
    unfold MS_PER_HOUR at h1
    omega

theorem cycle_urgentEmail_iff (now : Int) (db : DB) (alerted : List AlertKey) :
    (checkSLADeadlines now db alerted).1.urgentEmail ≠ none ↔
      ∃ p ∈ (checkSLADeadlines now db alerted).1.urgentList,
        (Tier.urgent, p.1) ∉ alerted := by
  rw [cycle_urgentEmail_eq]
  split
  · rename_i h
    rw [filter_len_pos] at h
    simp only [ne_eq, reduceCtorEq, not_false_iff, true_iff]
    rcases h with ⟨p, hp, hq⟩
    exact ⟨p, hp, (notYetAlerted_iff _ _ _).mp hq⟩
  · rename_i h
    rw [filter_len_pos] at h
    simp only [ne_eq, not_true, false_iff]
    push_neg at h ⊢
    intro p hp
    by_contra hna
    exact absurd ((notYetAlerted_iff _ _ _).mpr hna) (by simpa using h p hp)

theorem cycle_warningEmail_iff (now : Int) (db : DB) (alerted : List AlertKey) :
    (checkSLADeadlines now db alerted).1.warningEmail ≠ none ↔
      ∃ p ∈ (checkSLADeadlines now db alerted).1.warningList,
        (Tier.warning, p.1) ∉ alerted := by
  rw [cycle_warningEmail_eq]
  have hfilt : ((checkSLADeadlines now db alerted).1.warningList.filter
      (notYetAlerted Tier.warning
        (if ((checkSLADeadlines now db alerted).1.urgentList.filter
              (notYetAlerted Tier.urgent alerted)).length > 0
         then addAlerts Tier.urgent ((checkSLADeadlines now db alerted).1.urgentList.filter
              (notYetAlerted Tier.urgent alerted)) alerted
         else alerted))) =
      ((checkSLADeadlines now db alerted).1.warningList.filter
        (notYetAlerted Tier.warning alerted)) := by
    apply List.filter_congr
    intro p hp
    simp only [notYetAlerted, Bool.not_eq_true']
    congr 1
    rw [Bool.eq_iff_iff]
    simp only [decide_eq_true_eq]
    exact warning_mem_alerted1 _ alerted p.1
  simp only [hfilt]
  split
  · rename_i h
    rw [filter_len_pos] at h
    simp only [ne_eq, reduceCtorEq, not_false_iff, true_iff]
    rcases h with ⟨p, hp, hq⟩
    exact ⟨p, hp, (notYetAlerted_iff _ _ _).mp hq⟩
  · rename_i h
    rw [filter_len_pos] at h
    simp only [ne_eq, not_true, false_iff]
    push_neg at h ⊢
    intro p hp
    by_contra hna
    exact absurd ((notYetAlerted_iff _ _ _).mpr hna) (by simpa using h p hp)

/-- C4: one monitor cycle at time `now` places exactly the unresolved
reports with `now < deadline ≤ now+1h` in the urgent tier, exactly
those with `now+1h < deadline ≤ now+4h` in the warning tier, reports
with deadline beyond `now+4h` in neither, and sends one admin email per
tier exactly when that tier's not-yet-alerted subset is non-empty. -/
theorem C4_cycle_partition (now : Int) (db : DB) (alerted : List AlertKey) :
    (∀ id r, (id, r) ∈ (checkSLADeadlines now db alerted).1.urgentList ↔
      ((id, r) ∈ db.reports ∧ unresolvedStatus r = true ∧
       now < r.slaDeadline ∧ r.slaDeadline ≤ now + MS_PER_HOUR))
  ∧ (∀ id r, (id, r) ∈ (checkSLADeadlines now db alerted).1.warningList ↔
      ((id, r) ∈ db.reports ∧ unresolvedStatus r = true ∧
       now + MS_PER_HOUR < r.slaDeadline ∧ r.slaDeadline ≤ now + 4 * MS_PER_HOUR))
  ∧ (∀ id r, now + 4 * MS_PER_HOUR < r.slaDeadline →
      (id, r) ∉ (checkSLADeadlines now db alerted).1.urgentList ∧
      (id, r) ∉ (checkSLADeadlines now db alerted).1.warningList)
  ∧ ((checkSLADeadlines now db alerted).1.urgentEmail ≠ none ↔
      ∃ p ∈ (checkSLADeadlines now db alerted).1.urgentList,
        (Tier.urgent, p.1) ∉ alerted)
  ∧ ((checkSLADeadlines now db alerted).1.warningEmail ≠ none ↔
      ∃ p ∈ (checkSLADeadlines now db alerted).1.warningList,
        (Tier.warning, p.1) ∉ alerted) := by
  refine ⟨mem_cycle_urgentList now db alerted, mem_cycle_warningList now db alerted,
    ?_, cycle_urgentEmail_iff now db alerted, cycle_warningEmail_iff now db alerted⟩
  intro id r hfar
  constructor
  · intro hmem
    rcases (mem_cycle_urgentList now db alerted id r).mp hmem with ⟨_, _, _, h1⟩
    unfold MS_PER_HOUR at h1 hfar
    omega
  · intro hmem
    rcases (mem_cycle_warningList now db alerted id r).mp hmem with ⟨_, _, _, h4⟩
    unfold MS_PER_HOUR at h4 hfar
    omega

/-- Witness for C4: a report whose deadline is 10 hours away is in
neither tier of a cycle run at time 0. -/
theorem C4_cycle_partition_witness :
    (12, { reporterUserId := 1, targetType := .user, targetUserId := some 2,
           reason := .spam, slaDeadline := 36000000, createdAt := 0 : Report }) ∉
      (checkSLADeadlines 0 dbW3 []).1.urgentList :=
  ((C4_cycle_partition 0 dbW3 []).2.2.1 12
    { reporterUserId := 1, targetType := .user, targetUserId := some 2,
      reason := .spam, slaDeadline := 36000000, createdAt := 0 } (by decide)).1

/-- The urgent-tier email batch of a cycle. -/
def cycleNewUrgent (now : Int) (db : DB) (alerted : List AlertKey) :
    List (Nat × Report) :=
  (checkSLADeadlines now db alerted).1.urgentList.filter
    (notYetAlerted Tier.urgent alerted)

/-- The alerted set after the urgent phase of a cycle. -/
def cycleAlerted1 (now : Int) (db : DB) (alerted : List AlertKey) : List AlertKey :=
  if (cycleNewUrgent now db alerted).length > 0 then
    addAlerts Tier.urgent (cycleNewUrgent now db alerted) alerted
  else alerted

/-- The warning-tier email batch of a cycle. -/
def cycleNewWarning (now : Int) (db : DB) (alerted : List AlertKey) :
    List (Nat × Report) :=
  (checkSLADeadlines now db alerted).1.warningList.filter
    (notYetAlerted Tier.warning (cycleAlerted1 now db alerted))

/-- The alerted set after both alert phases of a cycle. -/
def cycleAlerted2 (now : Int) (db : DB) (alerted : List AlertKey) : List AlertKey :=
  if (cycleNewWarning now db alerted).length > 0 then
    addAlerts Tier.warning (cycleNewWarning now db alerted) (cycleAlerted1 now db alerted)
  else cycleAlerted1 now db alerted

/-- The terminal-report ids used by the reconciliation step. -/
def cycleResolvedIds (now : Int) (db : DB) : List Nat :=
  ((markBreachedReports now db).reports.filter (fun p => terminalStatus p.2)).map (·.1)

theorem cycle_alerted_eq (now : Int) (db : DB) (alerted : List AlertKey) :
    (checkSLADeadlines now db alerted).2.2 =
      (cycleAlerted2 now db alerted).filter
        (fun k => !((cycleResolvedIds now db).contains k.2)) := rfl

theorem cycle_urgentEmail_eq2 (now : Int) (db : DB) (alerted : List AlertKey) :
    (checkSLADeadlines now db alerted).1.urgentEmail =
      (if (cycleNewUrgent now db alerted).length > 0
       then some (cycleNewUrgent now db alerted) else none) := rfl

theorem cycle_warningEmail_eq2 (now : Int) (db : DB) (alerted : List AlertKey) :
    (checkSLADeadlines now db alerted).1.warningEmail =
      (if (cycleNewWarning now db alerted).length > 0
       then some (cycleNewWarning now db alerted) else none) := rfl

theorem mem_cycleAlerted1 (now : Int) (db : DB) (alerted : List AlertKey)
    (k : AlertKey) (hk : k ∈ alerted) : k ∈ cycleAlerted1 now db alerted := by
  unfold cycleAlerted1
  split
  · exact (mem_addAlerts _ _ _ _).mpr (Or.inr hk)
  · exact hk

theorem mem_cycleAlerted2 (now : Int) (db : DB) (alerted : List AlertKey)
    (k : AlertKey) (hk : k ∈ alerted) : k ∈ cycleAlerted2 now db alerted := by
  unfold cycleAlerted2
  split
  · exact (mem_addAlerts _ _ _ _).mpr (Or.inr (mem_cycleAlerted1 now db alerted k hk))
  · exact mem_cycleAlerted1 now db alerted k hk

theorem breachStep_status (now : Int) (r : Report) :
    (breachStep now r).status = r.status := by
  unfold breachStep
  split <;> rfl

theorem terminalStatus_breachStep (now : Int) (r : Report) :
    terminalStatus (breachStep now r) = terminalStatus r := by
  unfold terminalStatus
  rw [breachStep_status]

theorem mem_cycleResolvedIds (now : Int) (db : DB) (rid : Nat) :
    rid ∈ cycleResolvedIds now db ↔
      ∃ r, (rid, r) ∈ db.reports ∧ terminalStatus r = true := by
  unfold cycleResolvedIds markBreachedReports
  simp only [List.mem_map, List.mem_filter]
  constructor
  · rintro ⟨p, ⟨hp, hterm⟩, hfst⟩
    rcases hp with ⟨q, hq, rfl⟩
    refine ⟨q.2, ?_, ?_⟩
    · have hq1 : q.1 = rid := hfst
      rw [← hq1]
      exact hq
    · rwa [terminalStatus_breachStep] at hterm
  · rintro ⟨r, hr, hterm⟩
    refine ⟨(rid, breachStep now r), ⟨⟨(rid, r), hr, rfl⟩, ?_⟩, rfl⟩
    rwa [terminalStatus_breachStep]

/-- One cycle keeps an already-marked key (for a non-terminal report)
and never includes that report in that tier's email. -/
theorem cycle_key_stable (now : Int) (db : DB) (alerted : List AlertKey)
    (t : Tier) (rid : Nat)
    (hk : (t, rid) ∈ alerted)
    (hnt : ∀ r, (rid, r) ∈ db.reports → terminalStatus r = false) :
    ((t, rid) ∈ (checkSLADeadlines now db alerted).2.2)
  ∧ (∀ l, tierEmail t (checkSLADeadlines now db alerted).1 = some l →
      ∀ r, (rid, r) ∉ l) := by
  constructor
  · rw [cycle_alerted_eq]
    apply List.mem_filter.mpr
    refine ⟨mem_cycleAlerted2 now db alerted _ hk, ?_⟩
    have hnotin : rid ∉ cycleResolvedIds now db := by
      intro hin
      rcases (mem_cycleResolvedIds now db rid).mp hin with ⟨r, hr, hterm⟩
      rw [hnt r hr] at hterm
      cases hterm
    simp only [Bool.not_eq_true']
    rw [← Bool.not_eq_true, List.elem_iff]
    exact hnotin
  · intro l hl r hmem
    cases t with
    | urgent =>
        rw [tierEmail, cycle_urgentEmail_eq2] at hl
        split at hl
        · cases hl
          rcases List.mem_filter.mp hmem with ⟨_, hq⟩
          exact absurd hk ((notYetAlerted_iff _ _ _).mp hq)
        · cases hl
    | warning =>
        rw [tierEmail, cycle_warningEmail_eq2] at hl
        split at hl
        · cases hl
          rcases List.mem_filter.mp hmem with ⟨_, hq⟩
          exact absurd (mem_cycleAlerted1 now db alerted _ hk)
            ((notYetAlerted_iff _ _ _).mp hq)
        · cases hl

/-- A key for a terminal report is removed by the reconciliation step. -/
theorem cycle_key_removed (now : Int) (db : DB) (alerted : List AlertKey)
    (t : Tier) (rid : Nat)
    (hterm : ∃ r, (rid, r) ∈ db.reports ∧ terminalStatus r = true) :
    (t, rid) ∉ (checkSLADeadlines now db alerted).2.2 := by
  rw [cycle_alerted_eq]
  intro hmem
  rcases List.mem_filter.mp hmem with ⟨_, hq⟩
  have hin : rid ∈ cycleResolvedIds now db := (mem_cycleResolvedIds now db rid).mpr hterm
  simp only [Bool.not_eq_true'] at hq
  rw [← Bool.not_eq_true, List.elem_iff] at hq
  exact hq hin

/-- Across a whole run, a marked key stays marked and its report never
reappears in that tier's email, as long as the report stays
non-terminal. -/
theorem runTrace_key_stable (t : Tier) (rid : Nat) :
    ∀ (steps : List (Int × DB)) (A : List AlertKey),
      (t, rid) ∈ A →
      (∀ s ∈ steps, ∀ r, (rid, r) ∈ s.2.reports → terminalStatus r = false) →
      ((t, rid) ∈ (runTrace steps A).2) ∧
      (∀ out ∈ (runTrace steps A).1, ∀ l, tierEmail t out = some l →
        ∀ r, (rid, r) ∉ l) := by
  intro steps
  induction steps with
  | nil =>
      intro A hk _
      exact ⟨hk, by intro out hout; cases hout⟩
  | cons s rest ih =>
      intro A hk hnt
      obtain ⟨now, db⟩ := s
      have h1 := cycle_key_stable now db A t rid hk
        (fun r hr => hnt (now, db) (List.mem_cons_self _ _) r hr)
      have h2 := ih ((checkSLADeadlines now db A).2.2) h1.1
        (fun s hs => hnt s (List.mem_cons_of_mem _ hs))
      have houts : (runTrace ((now, db) :: rest) A).1 =
          (checkSLADeadlines now db A).1 ::
            (runTrace rest ((checkSLADeadlines now db A).2.2)).1 := rfl
      have hfin : (runTrace ((now, db) :: rest) A).2 =
          (runTrace rest ((checkSLADeadlines now db A).2.2)).2 := rfl
      constructor
      · rw [hfin]
        exact h2.1
      · intro out hout l hl r hr
        rw [houts] at hout
        rcases List.mem_cons.mp hout with rfl | hout
        · exact h1.2 l hl r hr
        · exact h2.2 out hout l hl r hr

/-- C5: across any sequence of monitor cycles, once a `{tier}-{reportId}`
key is in the alerted set, no later cycle includes that report in that
tier's email while the report stays unresolved, and the key survives
every such cycle; a cycle that sees the report terminal removes the key
during reconciliation. -/
theorem C5_alert_once_per_tier (t : Tier) (rid : Nat) (steps : List (Int × DB))
    (A : List AlertKey)
    (hk : (t, rid) ∈ A)
    (hnt : ∀ s ∈ steps, ∀ r, (rid, r) ∈ s.2.reports → terminalStatus r = false) :
    ((t, rid) ∈ (runTrace steps A).2)
  ∧ (∀ out ∈ (runTrace steps A).1, ∀ l, tierEmail t out = some l →
      ∀ r, (rid, r) ∉ l)
  ∧ (∀ now db, (∃ r, (rid, r) ∈ db.reports ∧ terminalStatus r = true) →
      (t, rid) ∉ (checkSLADeadlines now db A).2.2) := by
  have h := runTrace_key_stable t rid steps A hk hnt
  exact ⟨h.1, h.2, fun now db hterm => cycle_key_removed now db A t rid hterm⟩

/-- Witness for C5: with report 10's key already marked urgent and one
further cycle at time 0 over the concrete database, report 10 appears
in no urgent email and its key survives. -/
theorem C5_alert_once_witness :
    ((Tier.urgent, 10) ∈ (runTrace [(0, dbW3)] [(Tier.urgent, 10)]).2) :=
  (C5_alert_once_per_tier Tier.urgent 10 [(0, dbW3)] [(Tier.urgent, 10)]
    (by decide)
    (by
      intro s hs r hr
      rcases List.mem_cons.mp hs with rfl | hs
      · simp only [dbW3, List.mem_singleton, Prod.mk.injEq] at hr
        rw [hr.2]
        decide
      · cases hs)).1

/-! ## Infrastructure for C8: block exclusion -/

theorem mem_getBlockedUserIds (db : DB) (a x : Nat) :
    x ∈ getBlockedUserIds db a ↔
      ∃ b ∈ db.blocks, b.blockerUserId = a ∧ b.blockedUserId = x := by
  unfold getBlockedUserIds
  simp only [List.mem_map, List.mem_filter, beq_iff_eq]
  constructor
  · rintro ⟨b, ⟨hb, hba⟩, hbx⟩
    exact ⟨b, hb, hba, hbx⟩
  · rintro ⟨b, hb, hba, hbx⟩
    exact ⟨b, ⟨hb, hba⟩, hbx⟩

/-- After erasing the unique match, nothing matches any more. -/
theorem eraseP_no_match {α : Type} (p : α → Bool) (l : List α)
    (h : l.countP p ≤ 1) : ∀ a ∈ l.eraseP p, p a = false := by
  induction l with
  | nil =>
      intro a ha
      cases ha
  | cons x l ih =>
      intro a ha
      by_cases hx : p x = true
      · rw [List.eraseP_cons_of_pos hx] at ha
        have h0 : l.countP p = 0 := by
          rw [List.countP_cons, if_pos hx] at h
          omega
        have hall := List.countP_eq_zero.mp h0
        simpa using hall a ha
      · rw [List.eraseP_cons_of_neg hx] at ha
        rcases List.mem_cons.mp ha with rfl | ha
        · simpa using hx
        · apply ih _ a ha
          rw [List.countP_cons, if_neg hx] at h
          omega

/-- C8: while A blocks B, the authenticated `GET /all_images` listing for
viewer A contains no image authored by B; the unblock succeeds; and
afterwards every image of B that matches the query's category filter is
again in the listing query's result set. -/
theorem C8_block_exclusion (db : DB) (A B : Nat) (cat : Option String)
    (page limit : Nat)
    (hedge : ∃ b ∈ db.blocks, b.blockerUserId = A ∧ b.blockedUserId = B)
    (huniq : db.blocks.countP (blockEdgeMatch A B) ≤ 1) :
    (∀ p ∈ allImagesPage db (some A) cat page limit, p.2.userId ≠ B)
  ∧ ((deleteBlock db A B).1 = UnblockResult.ok)
  ∧ (∀ p ∈ db.images, p.2.userId = B → categoryMatch cat p.2 = true →
      p ∈ allImagesFind (deleteBlock db A B).2 (some A) cat) := by
  have hBmem : B ∈ getBlockedUserIds db A := by
    rw [mem_getBlockedUserIds]
    exact hedge
  have hany : db.blocks.any (blockEdgeMatch A B) = true := by
    rw [List.any_eq_true]
    rcases hedge with ⟨b, hb, h1, h2⟩
    exact ⟨b, hb, by simp [blockEdgeMatch, h1, h2]⟩
  refine ⟨?_, ?_, ?_⟩
  · intro p hp hpB
    have hfind : p ∈ allImagesFind db (some A) cat :=
      List.mem_of_mem_drop (List.mem_of_mem_take hp)
    rcases List.mem_filter.mp hfind with ⟨_, hq⟩
    unfold allImagesMatch at hq
    rw [Bool.and_eq_true] at hq
    obtain ⟨_, hview⟩ := hq
    dsimp only at hview
    have hlen : (getBlockedUserIds db A).length > 0 :=
      List.length_pos.mpr (List.ne_nil_of_mem hBmem)
    rw [if_pos hlen] at hview
    rw [hpB] at hview
    simp only [Bool.not_eq_true', ← Bool.not_eq_true, List.elem_iff] at hview
    exact hview hBmem
  · unfold deleteBlock
    rw [if_pos hany]
  · intro p hp hpB hcat
    have hdb' : (deleteBlock db A B).2 =
        { db with blocks := db.blocks.eraseP (blockEdgeMatch A B) } := by
      unfold deleteBlock
      rw [if_pos hany]
    rw [hdb']
    apply List.mem_filter.mpr
    refine ⟨hp, ?_⟩
    unfold allImagesMatch
    rw [Bool.and_eq_true]
    refine ⟨hcat, ?_⟩
    dsimp only
    have hnomatch := eraseP_no_match (blockEdgeMatch A B) db.blocks huniq
    have hnot : B ∉ getBlockedUserIds
        { db with blocks := db.blocks.eraseP (blockEdgeMatch A B) } A := by
      rw [mem_getBlockedUserIds]
      rintro ⟨b, hb, h1, h2⟩
      have : blockEdgeMatch A B b = true := by
        simp [blockEdgeMatch, h1, h2]
      rw [hnomatch b hb] at this
      cases this
    split
    · rw [hpB]
      simp only [Bool.not_eq_true', ← Bool.not_eq_true, List.elem_iff]
      exact hnot
    · rfl

/-- Witness database for C8: user 1 blocks user 2; image 5 is by user 2,
image 6 by user 3. -/
def dbW8 : DB :=
  { users := [(1, {}), (2, {}), (3, {})]
    images := [(5, { userId := 2, name := "by2" }), (6, { userId := 3, name := "by3" })]
    blocks := [{ blockerUserId := 1, blockedUserId := 2 }] }

/-- Witness for C8: after user 1 unblocks user 2, image 5 (authored by 2)
is again in the listing query result for viewer 1. -/
theorem C8_block_exclusion_witness :
    (5, { userId := 2, name := "by2" : Image }) ∈
      allImagesFind (deleteBlock dbW8 1 2).2 (some 1) none :=
  (C8_block_exclusion dbW8 1 2 none 1 50
    ⟨{ blockerUserId := 1, blockedUserId := 2 }, by decide, by decide, by decide⟩
    (by decide)).2.2 (5, { userId := 2, name := "by2" }) (by decide) (by decide) (by decide)

end Immpression
